import Mathlib

/-!
Verification of the MicroBitFileSystem compatibility facade
(src/inc/MicroBitFileSystem.h, src/source/MicroBitFileSystem.cpp).

The class MicroBitFileSystem has no non-static data members; its only
persistent datum is the static pointer MicroBitFileSystem::defaultFileSystem
(header line 33, initialised at module load in MicroBitFileSystem.cpp line 27).
Every member function body is a single delegated call to the external object
CodalFS::defaultFileSystem, whose implementation is not part of the provided
source; that engine is therefore kept abstract over a state type σ.

Each facade operation is embedded as a function from the engine interface, the
receiver's address, the visible world state and the C++ arguments to the int
result, the successor world and the list of observable events the body
performs (engine calls and, potentially, synchronisation actions — the source
performs none of the latter, which the embedding makes provable).
-/

/-- Machine pointer values (C++ pointers such as `this` or `uint8_t *buffer`)
are modelled as abstract addresses. The facade never dereferences a buffer
pointer itself; it only hands the pointer to the engine. -/
abbrev Ptr : Type := Nat

/-- C strings (`char const *` arguments) are modelled as Lean strings; the
facade only forwards them, never inspects them. -/
abbrev CString : Type := String

/-- Interface of the external backing engine, the object
CodalFS::defaultFileSystem. Its implementation is not in the provided source,
so it stays abstract over a state type σ: each operation maps the engine's
current state and the arguments appearing at the facade's call sites in
src/source/MicroBitFileSystem.cpp to an int result and a successor engine
state; init is the engine initialisation whose result, if any, the facade's
constructor discards. The field openFile stands for the engine's open, a word
Lean reserves. -/
structure CodalFSEngine (σ : Type) where
  init : σ → σ
  openFile : σ → CString → Nat → Int × σ
  flush : σ → Int → Int × σ
  close : σ → Int → Int × σ
  seek : σ → Int → Int → Nat → Int × σ
  read : σ → Int → Ptr → Int → Int × σ
  write : σ → Int → Ptr → Int → Int × σ
  remove : σ → CString → Int × σ
  createDirectory : σ → CString → Int × σ

/-- One call into the external engine: which operation of
CodalFS::defaultFileSystem was invoked, and with which argument values. -/
inductive EngineCall where
  | init : EngineCall
  | openFile (filename : CString) (flags : Nat) : EngineCall
  | flush (fd : Int) : EngineCall
  | close (fd : Int) : EngineCall
  | seek (fd : Int) (offset : Int) (flags : Nat) : EngineCall
  | read (fd : Int) (buffer : Ptr) (size : Int) : EngineCall
  | write (fd : Int) (buffer : Ptr) (size : Int) : EngineCall
  | remove (filename : CString) : EngineCall
  | createDirectory (name : CString) : EngineCall

/-- Observable actions the facade layer could in principle perform: calls into
the backing engine, and synchronisation actions (lock handling, interrupt
masking, scheduler interaction). The embedding of each operation records the
actions its body actually performs, so absence of synchronisation is a
provable property rather than an assumption. -/
inductive Event where
  | engineCall (c : EngineCall) : Event
  | lockAcquire : Event
  | lockRelease : Event
  | interruptsDisable : Event
  | interruptsEnable : Event
  | schedulerYield : Event

/-- Whether an event is a synchronisation action rather than an engine call. -/
def Event.isSync : Event → Bool
  | Event.engineCall _ => false
  | _ => true

/-- The mutable state visible to this layer: the abstract state of the backing
engine CodalFS::defaultFileSystem, and the facade's single static pointer
MicroBitFileSystem::defaultFileSystem (header line 33). -/
structure World (σ : Type) where
  codalFS : σ
  mbDefaultFileSystem : Ptr

/-- Per-instance data of class MicroBitFileSystem: the class declaration
(src/inc/MicroBitFileSystem.h lines 29-33) contains only member functions and
one static pointer, no non-static data members, so this structure has no
fields. -/
structure MicroBitFileSystemData

/-- Embeds MicroBitFileSystem::MicroBitFileSystem(uint32_t flashStart, int
flashPages) (MicroBitFileSystem.cpp lines 32-36). The body consists of the
single statement CodalFS::defaultFileSystem->init(); both parameters are
unused. self is the address of the object under construction. -/
def MicroBitFileSystem.construct {σ : Type} (E : CodalFSEngine σ) (self : Ptr)
    (w : World σ) (flashStart : Nat) (flashPages : Int) :
    World σ × List Event :=
  ({ w with codalFS := E.init w.codalFS }, [Event.engineCall EngineCall.init])

/-- Embeds the static initialiser at MicroBitFileSystem.cpp line 27:
MicroBitFileSystem::defaultFileSystem = new MicroBitFileSystem(0, 0);
self is the address produced by new; before this statement runs, the
zero-initialised static pointer holds the null value 0. -/
def MicroBitFileSystem.moduleLoad {σ : Type} (E : CodalFSEngine σ) (self : Ptr)
    (s : σ) : World σ × List Event :=
  let r := MicroBitFileSystem.construct E self
    { codalFS := s, mbDefaultFileSystem := 0 } 0 0
  ({ r.1 with mbDefaultFileSystem := self }, r.2)

/-- Embeds int MicroBitFileSystem::open(char const *filename, uint32_t flags)
(MicroBitFileSystem.cpp lines 74-78); the body is exactly
return CodalFS::defaultFileSystem->open(filename, flags). Named openFile
because Lean reserves the word open. -/
def MicroBitFileSystem.openFile {σ : Type} (E : CodalFSEngine σ) (self : Ptr)
    (w : World σ) (filename : CString) (flags : Nat) :
    Int × World σ × List Event :=
  let r := E.openFile w.codalFS filename flags
  (r.1, { w with codalFS := r.2 },
    [Event.engineCall (EngineCall.openFile filename flags)])

/-- Embeds int MicroBitFileSystem::flush(int fd) (MicroBitFileSystem.cpp lines
99-103); the body is exactly return CodalFS::defaultFileSystem->flush(fd). -/
def MicroBitFileSystem.flush {σ : Type} (E : CodalFSEngine σ) (self : Ptr)
    (w : World σ) (fd : Int) : Int × World σ × List Event :=
  let r := E.flush w.codalFS fd
  (r.1, { w with codalFS := r.2 }, [Event.engineCall (EngineCall.flush fd)])

/-- Embeds int MicroBitFileSystem::close(int fd) (MicroBitFileSystem.cpp lines
127-131); the body is exactly return CodalFS::defaultFileSystem->close(fd). -/
def MicroBitFileSystem.close {σ : Type} (E : CodalFSEngine σ) (self : Ptr)
    (w : World σ) (fd : Int) : Int × World σ × List Event :=
  let r := E.close w.codalFS fd
  (r.1, { w with codalFS := r.2 }, [Event.engineCall (EngineCall.close fd)])

/-- Embeds int MicroBitFileSystem::seek(int fd, int offset, uint8_t flags)
(MicroBitFileSystem.cpp lines 156-160); the body is exactly
return CodalFS::defaultFileSystem->seek(fd, offset, flags). -/
def MicroBitFileSystem.seek {σ : Type} (E : CodalFSEngine σ) (self : Ptr)
    (w : World σ) (fd : Int) (offset : Int) (flags : Nat) :
    Int × World σ × List Event :=
  let r := E.seek w.codalFS fd offset flags
  (r.1, { w with codalFS := r.2 },
    [Event.engineCall (EngineCall.seek fd offset flags)])

/-- Embeds int MicroBitFileSystem::read(int fd, uint8_t *buffer, int size)
(MicroBitFileSystem.cpp lines 184-188); the body is exactly
return CodalFS::defaultFileSystem->read(fd, buffer, size). -/
def MicroBitFileSystem.read {σ : Type} (E : CodalFSEngine σ) (self : Ptr)
    (w : World σ) (fd : Int) (buffer : Ptr) (size : Int) :
    Int × World σ × List Event :=
  let r := E.read w.codalFS fd buffer size
  (r.1, { w with codalFS := r.2 },
    [Event.engineCall (EngineCall.read fd buffer size)])

/-- Embeds int MicroBitFileSystem::write(int fd, uint8_t *buffer, int size)
(MicroBitFileSystem.cpp lines 216-220); the body is exactly
return CodalFS::defaultFileSystem->write(fd, buffer, size). -/
def MicroBitFileSystem.write {σ : Type} (E : CodalFSEngine σ) (self : Ptr)
    (w : World σ) (fd : Int) (buffer : Ptr) (size : Int) :
    Int × World σ × List Event :=
  let r := E.write w.codalFS fd buffer size
  (r.1, { w with codalFS := r.2 },
    [Event.engineCall (EngineCall.write fd buffer size)])

/-- Embeds int MicroBitFileSystem::remove(char const *filename)
(MicroBitFileSystem.cpp lines 236-240); the body is exactly
return CodalFS::defaultFileSystem->remove(filename). -/
def MicroBitFileSystem.remove {σ : Type} (E : CodalFSEngine σ) (self : Ptr)
    (w : World σ) (filename : CString) : Int × World σ × List Event :=
  let r := E.remove w.codalFS filename
  (r.1, { w with codalFS := r.2 },
    [Event.engineCall (EngineCall.remove filename)])

/-- Embeds int MicroBitFileSystem::createDirectory(char const *name)
(MicroBitFileSystem.cpp lines 44-48); the body is exactly
return CodalFS::defaultFileSystem->createDirectory(name). -/
def MicroBitFileSystem.createDirectory {σ : Type} (E : CodalFSEngine σ)
    (self : Ptr) (w : World σ) (name : CString) : Int × World σ × List Event :=
  let r := E.createDirectory w.codalFS name
  (r.1, { w with codalFS := r.2 },
    [Event.engineCall (EngineCall.createDirectory name)])

/-- One invocation of a facade operation, with its receiver address and its
argument values, used to talk about arbitrary call sequences. -/
inductive MBOp where
  | construct (self : Ptr) (flashStart : Nat) (flashPages : Int) : MBOp
  | openFile (self : Ptr) (filename : CString) (flags : Nat) : MBOp
  | flush (self : Ptr) (fd : Int) : MBOp
  | close (self : Ptr) (fd : Int) : MBOp
  | seek (self : Ptr) (fd : Int) (offset : Int) (flags : Nat) : MBOp
  | read (self : Ptr) (fd : Int) (buffer : Ptr) (size : Int) : MBOp
  | write (self : Ptr) (fd : Int) (buffer : Ptr) (size : Int) : MBOp
  | remove (self : Ptr) (filename : CString) : MBOp
  | createDirectory (self : Ptr) (name : CString) : MBOp

/-- The world reached after one facade operation executes. -/
def MBOp.step {σ : Type} (E : CodalFSEngine σ) (w : World σ) : MBOp → World σ
  | MBOp.construct self a b => (MicroBitFileSystem.construct E self w a b).1
  | MBOp.openFile self f fl => (MicroBitFileSystem.openFile E self w f fl).2.1
  | MBOp.flush self fd => (MicroBitFileSystem.flush E self w fd).2.1
  | MBOp.close self fd => (MicroBitFileSystem.close E self w fd).2.1
  | MBOp.seek self fd off fl => (MicroBitFileSystem.seek E self w fd off fl).2.1
  | MBOp.read self fd b n => (MicroBitFileSystem.read E self w fd b n).2.1
  | MBOp.write self fd b n => (MicroBitFileSystem.write E self w fd b n).2.1
  | MBOp.remove self f => (MicroBitFileSystem.remove E self w f).2.1
  | MBOp.createDirectory self n =>
      (MicroBitFileSystem.createDirectory E self w n).2.1

/-- The world reached after a sequence of facade operations executes. -/
def runOps {σ : Type} (E : CodalFSEngine σ) (w : World σ) :
    List MBOp → World σ
  | [] => w
  | op :: ops => runOps E (MBOp.step E w op) ops

/-- The specification's pass-through identity law, stated from its own words
(spec.md sections 7 and 8): an operation with argument bundle α satisfies the
law against an engine operation when, on every world and every argument
bundle, it returns exactly the engine's return value for the identical
arguments, its only effect on the world is exactly the engine's state
transition, it leaves the facade's static pointer untouched, and it performs
exactly the one delegated engine call and nothing else. -/
def PassThroughLaw {σ α : Type}
    (facadeOp : World σ → α → Int × World σ × List Event)
    (engineOp : σ → α → Int × σ) (call : α → EngineCall) : Prop :=
  ∀ (w : World σ) (a : α),
    (facadeOp w a).1 = (engineOp w.codalFS a).1 ∧
    (facadeOp w a).2.1.codalFS = (engineOp w.codalFS a).2 ∧
    (facadeOp w a).2.1.mbDefaultFileSystem = w.mbDefaultFileSystem ∧
    (facadeOp w a).2.2 = [Event.engineCall (call a)]

/-- Each facade operation leaves the static pointer
MicroBitFileSystem::defaultFileSystem unchanged (step-level frame lemma). -/
theorem MBOp.step_mbDefault {σ : Type} (E : CodalFSEngine σ) (w : World σ)
    (op : MBOp) :
    (MBOp.step E w op).mbDefaultFileSystem = w.mbDefaultFileSystem := by
  cases op <;> rfl

/-- No sequence of facade operations changes the static pointer
MicroBitFileSystem::defaultFileSystem. -/
theorem runOps_mbDefault {σ : Type} (E : CodalFSEngine σ) (ops : List MBOp)
    (w : World σ) :
    (runOps E w ops).mbDefaultFileSystem = w.mbDefaultFileSystem := by
  induction ops generalizing w with
  | nil => rfl
  | cons op ops ih =>
      show (runOps E (MBOp.step E w op) ops).mbDefaultFileSystem
          = w.mbDefaultFileSystem
      rw [ih (MBOp.step E w op), MBOp.step_mbDefault]

/-- C1: Pass-through identity law. For each of the eight file operations
(open, flush, close, seek, read, write, remove, createDirectory) and all
argument values, the facade's return value equals the return value the backing
engine CodalFS::defaultFileSystem produces for the identical arguments — so
every status or error code comes back unmodified — and the facade's only side
effect is that single delegated engine call: the engine state advances exactly
by the engine's own transition, the static pointer is untouched, and the event
trace is exactly the one call. -/
theorem passthrough_identity_all_ops {σ : Type} (E : CodalFSEngine σ)
    (self : Ptr) :
    PassThroughLaw
      (fun w (a : CString × Nat) => MicroBitFileSystem.openFile E self w a.1 a.2)
      (fun s a => E.openFile s a.1 a.2)
      (fun a => EngineCall.openFile a.1 a.2) ∧
    PassThroughLaw (fun w (a : Int) => MicroBitFileSystem.flush E self w a)
      (fun s a => E.flush s a) (fun a => EngineCall.flush a) ∧
    PassThroughLaw (fun w (a : Int) => MicroBitFileSystem.close E self w a)
      (fun s a => E.close s a) (fun a => EngineCall.close a) ∧
    PassThroughLaw
      (fun w (a : Int × Int × Nat) =>
        MicroBitFileSystem.seek E self w a.1 a.2.1 a.2.2)
      (fun s a => E.seek s a.1 a.2.1 a.2.2)
      (fun a => EngineCall.seek a.1 a.2.1 a.2.2) ∧
    PassThroughLaw
      (fun w (a : Int × Ptr × Int) =>
        MicroBitFileSystem.read E self w a.1 a.2.1 a.2.2)
      (fun s a => E.read s a.1 a.2.1 a.2.2)
      (fun a => EngineCall.read a.1 a.2.1 a.2.2) ∧
    PassThroughLaw
      (fun w (a : Int × Ptr × Int) =>
        MicroBitFileSystem.write E self w a.1 a.2.1 a.2.2)
      (fun s a => E.write s a.1 a.2.1 a.2.2)
      (fun a => EngineCall.write a.1 a.2.1 a.2.2) ∧
    PassThroughLaw (fun w (a : CString) => MicroBitFileSystem.remove E self w a)
      (fun s a => E.remove s a) (fun a => EngineCall.remove a) ∧
    PassThroughLaw
      (fun w (a : CString) => MicroBitFileSystem.createDirectory E self w a)
      (fun s a => E.createDirectory s a)
      (fun a => EngineCall.createDirectory a) :=
  ⟨fun _ _ => ⟨rfl, rfl, rfl, rfl⟩, fun _ _ => ⟨rfl, rfl, rfl, rfl⟩,
   fun _ _ => ⟨rfl, rfl, rfl, rfl⟩, fun _ _ => ⟨rfl, rfl, rfl, rfl⟩,
   fun _ _ => ⟨rfl, rfl, rfl, rfl⟩, fun _ _ => ⟨rfl, rfl, rfl, rfl⟩,
   fun _ _ => ⟨rfl, rfl, rfl, rfl⟩, fun _ _ => ⟨rfl, rfl, rfl, rfl⟩⟩

/-- C2: All nine public operations of the facade — the constructor plus open,
flush, close, seek, read, write, remove and createDirectory — are pure
pass-through calls to the one external singleton CodalFS::defaultFileSystem:
each performs exactly one engine call, namely the corresponding operation of
that single external instance applied to the operation's own arguments (init
for the constructor), and its whole effect is the engine's own transition of
the shared engine state. -/
theorem nine_ops_single_delegated_call {σ : Type} (E : CodalFSEngine σ)
    (self : Ptr) (w : World σ) (filename name : CString) (flags : Nat)
    (fd offset size flashPages : Int) (sflags flashStart : Nat)
    (buffer : Ptr) :
    MicroBitFileSystem.construct E self w flashStart flashPages
      = ({ w with codalFS := E.init w.codalFS },
         [Event.engineCall EngineCall.init]) ∧
    MicroBitFileSystem.openFile E self w filename flags
      = ((E.openFile w.codalFS filename flags).1,
         { w with codalFS := (E.openFile w.codalFS filename flags).2 },
         [Event.engineCall (EngineCall.openFile filename flags)]) ∧
    MicroBitFileSystem.flush E self w fd
      = ((E.flush w.codalFS fd).1,
         { w with codalFS := (E.flush w.codalFS fd).2 },
         [Event.engineCall (EngineCall.flush fd)]) ∧
    MicroBitFileSystem.close E self w fd
      = ((E.close w.codalFS fd).1,
         { w with codalFS := (E.close w.codalFS fd).2 },
         [Event.engineCall (EngineCall.close fd)]) ∧
    MicroBitFileSystem.seek E self w fd offset sflags
      = ((E.seek w.codalFS fd offset sflags).1,
         { w with codalFS := (E.seek w.codalFS fd offset sflags).2 },
         [Event.engineCall (EngineCall.seek fd offset sflags)]) ∧
    MicroBitFileSystem.read E self w fd buffer size
      = ((E.read w.codalFS fd buffer size).1,
         { w with codalFS := (E.read w.codalFS fd buffer size).2 },
         [Event.engineCall (EngineCall.read fd buffer size)]) ∧
    MicroBitFileSystem.write E self w fd buffer size
      = ((E.write w.codalFS fd buffer size).1,
         { w with codalFS := (E.write w.codalFS fd buffer size).2 },
         [Event.engineCall (EngineCall.write fd buffer size)]) ∧
    MicroBitFileSystem.remove E self w filename
      = ((E.remove w.codalFS filename).1,
         { w with codalFS := (E.remove w.codalFS filename).2 },
         [Event.engineCall (EngineCall.remove filename)]) ∧
    MicroBitFileSystem.createDirectory E self w name
      = ((E.createDirectory w.codalFS name).1,
         { w with codalFS := (E.createDirectory w.codalFS name).2 },
         [Event.engineCall (EngineCall.createDirectory name)]) :=
  ⟨rfl, rfl, rfl, rfl, rfl, rfl, rfl, rfl, rfl⟩

/-- C3: For each of the eight named operations and all argument values, the
facade validates nothing of its own and forwards its arguments verbatim —
unchanged and in the same order — to the operation of the same name on the
external default file-system object, returning that operation's result
unchanged: the recorded engine call carries exactly the facade's own arguments
in their original order, and the result and engine-state transition are
exactly those of the engine applied to those same arguments. -/
theorem eight_ops_forward_args_verbatim {σ : Type} (E : CodalFSEngine σ)
    (self : Ptr) (w : World σ) (filename name : CString) (flags : Nat)
    (fd offset size : Int) (sflags : Nat) (buffer : Ptr) :
    ((MicroBitFileSystem.openFile E self w filename flags).1
        = (E.openFile w.codalFS filename flags).1 ∧
      (MicroBitFileSystem.openFile E self w filename flags).2.2
        = [Event.engineCall (EngineCall.openFile filename flags)]) ∧
    ((MicroBitFileSystem.flush E self w fd).1 = (E.flush w.codalFS fd).1 ∧
      (MicroBitFileSystem.flush E self w fd).2.2
        = [Event.engineCall (EngineCall.flush fd)]) ∧
    ((MicroBitFileSystem.close E self w fd).1 = (E.close w.codalFS fd).1 ∧
      (MicroBitFileSystem.close E self w fd).2.2
        = [Event.engineCall (EngineCall.close fd)]) ∧
    ((MicroBitFileSystem.seek E self w fd offset sflags).1
        = (E.seek w.codalFS fd offset sflags).1 ∧
      (MicroBitFileSystem.seek E self w fd offset sflags).2.2
        = [Event.engineCall (EngineCall.seek fd offset sflags)]) ∧
    ((MicroBitFileSystem.read E self w fd buffer size).1
        = (E.read w.codalFS fd buffer size).1 ∧
      (MicroBitFileSystem.read E self w fd buffer size).2.2
        = [Event.engineCall (EngineCall.read fd buffer size)]) ∧
    ((MicroBitFileSystem.write E self w fd buffer size).1
        = (E.write w.codalFS fd buffer size).1 ∧
      (MicroBitFileSystem.write E self w fd buffer size).2.2
        = [Event.engineCall (EngineCall.write fd buffer size)]) ∧
    ((MicroBitFileSystem.remove E self w filename).1
        = (E.remove w.codalFS filename).1 ∧
      (MicroBitFileSystem.remove E self w filename).2.2
        = [Event.engineCall (EngineCall.remove filename)]) ∧
    ((MicroBitFileSystem.createDirectory E self w name).1
        = (E.createDirectory w.codalFS name).1 ∧
      (MicroBitFileSystem.createDirectory E self w name).2.2
        = [Event.engineCall (EngineCall.createDirectory name)]) :=
  ⟨⟨rfl, rfl⟩, ⟨rfl, rfl⟩, ⟨rfl, rfl⟩, ⟨rfl, rfl⟩, ⟨rfl, rfl⟩, ⟨rfl, rfl⟩,
   ⟨rfl, rfl⟩, ⟨rfl, rfl⟩⟩

/-- C4: Every construction of a MicroBitFileSystem — including the
process-wide default instance built by the static initialiser at module load —
performs exactly one engine call, an init() on the shared
CodalFS::defaultFileSystem; consequently constructing any additional facade
instance, from any state the world may have reached, re-initialises the shared
backing engine. -/
theorem every_construction_inits_engine_once {σ : Type} (E : CodalFSEngine σ)
    (self : Ptr) (w : World σ) (s : σ) (flashStart : Nat) (flashPages : Int) :
    (MicroBitFileSystem.construct E self w flashStart flashPages).2
      = [Event.engineCall EngineCall.init] ∧
    (MicroBitFileSystem.construct E self w flashStart flashPages).1.codalFS
      = E.init w.codalFS ∧
    (MicroBitFileSystem.moduleLoad E self s).2
      = [Event.engineCall EngineCall.init] ∧
    (MicroBitFileSystem.moduleLoad E self s).1.codalFS = E.init s :=
  ⟨rfl, rfl, rfl, rfl⟩

/-- C5: The facade's only persistent datum, the static pointer
MicroBitFileSystem::defaultFileSystem, is set exactly once by the module-load
initialiser (to the address of the newly constructed default instance) and is
never reassigned by any operation of this layer: after any sequence of facade
operations — any receivers, any arguments, constructors included — the pointer
still holds the value assigned at load time. -/
theorem static_pointer_never_reassigned {σ : Type} (E : CodalFSEngine σ)
    (self : Ptr) (s : σ) (ops : List MBOp) :
    (MicroBitFileSystem.moduleLoad E self s).1.mbDefaultFileSystem = self ∧
    (runOps E (MicroBitFileSystem.moduleLoad E self s).1 ops).mbDefaultFileSystem
      = self :=
  ⟨rfl, (runOps_mbDefault E ops (MicroBitFileSystem.moduleLoad E self s).1).trans rfl⟩

/-- C6: Frame property. The facade defines no per-instance state at all (the
type of a MicroBitFileSystem object's non-static data is a singleton, so the
instance itself cannot change), and every one of its nine operations leaves
the facade's own state — the sole static pointer — unchanged; the only world
component an operation may change is the backing engine's state. -/
theorem frame_no_instance_state_engine_only {σ : Type} (E : CodalFSEngine σ)
    (self : Ptr) (w : World σ) (filename name : CString) (flags : Nat)
    (fd offset size flashPages : Int) (sflags flashStart : Nat)
    (buffer : Ptr) :
    (∀ x y : MicroBitFileSystemData, x = y) ∧
    (MicroBitFileSystem.construct E self w flashStart flashPages).1.mbDefaultFileSystem
      = w.mbDefaultFileSystem ∧
    (MicroBitFileSystem.openFile E self w filename flags).2.1.mbDefaultFileSystem
      = w.mbDefaultFileSystem ∧
    (MicroBitFileSystem.flush E self w fd).2.1.mbDefaultFileSystem
      = w.mbDefaultFileSystem ∧
    (MicroBitFileSystem.close E self w fd).2.1.mbDefaultFileSystem
      = w.mbDefaultFileSystem ∧
    (MicroBitFileSystem.seek E self w fd offset sflags).2.1.mbDefaultFileSystem
      = w.mbDefaultFileSystem ∧
    (MicroBitFileSystem.read E self w fd buffer size).2.1.mbDefaultFileSystem
      = w.mbDefaultFileSystem ∧
    (MicroBitFileSystem.write E self w fd buffer size).2.1.mbDefaultFileSystem
      = w.mbDefaultFileSystem ∧
    (MicroBitFileSystem.remove E self w filename).2.1.mbDefaultFileSystem
      = w.mbDefaultFileSystem ∧
    (MicroBitFileSystem.createDirectory E self w name).2.1.mbDefaultFileSystem
      = w.mbDefaultFileSystem :=
  ⟨fun x y => by cases x; cases y; rfl,
   rfl, rfl, rfl, rfl, rfl, rfl, rfl, rfl, rfl⟩

/-- C7: Receiver and static-pointer independence. For every operation and all
arguments, the result, the recorded engine call and the resulting engine state
are identical for any two receiver addresses and for any two values of the
static pointer MicroBitFileSystem::defaultFileSystem: no operation reads the
receiver or that pointer, so the outcome depends only on the arguments and on
the CodalFS::defaultFileSystem engine state. -/
theorem receiver_and_static_pointer_independence {σ : Type}
    (E : CodalFSEngine σ) (s : σ) (self selfB p pB : Ptr)
    (filename name : CString) (flags : Nat) (fd offset size flashPages : Int)
    (sflags flashStart : Nat) (buffer : Ptr) :
    (MicroBitFileSystem.construct E self ⟨s, p⟩ flashStart flashPages).1.codalFS
      = (MicroBitFileSystem.construct E selfB ⟨s, pB⟩ flashStart flashPages).1.codalFS ∧
    (MicroBitFileSystem.construct E self ⟨s, p⟩ flashStart flashPages).2
      = (MicroBitFileSystem.construct E selfB ⟨s, pB⟩ flashStart flashPages).2 ∧
    (MicroBitFileSystem.openFile E self ⟨s, p⟩ filename flags).1
      = (MicroBitFileSystem.openFile E selfB ⟨s, pB⟩ filename flags).1 ∧
    (MicroBitFileSystem.openFile E self ⟨s, p⟩ filename flags).2.1.codalFS
      = (MicroBitFileSystem.openFile E selfB ⟨s, pB⟩ filename flags).2.1.codalFS ∧
    (MicroBitFileSystem.openFile E self ⟨s, p⟩ filename flags).2.2
      = (MicroBitFileSystem.openFile E selfB ⟨s, pB⟩ filename flags).2.2 ∧
    (MicroBitFileSystem.flush E self ⟨s, p⟩ fd).1
      = (MicroBitFileSystem.flush E selfB ⟨s, pB⟩ fd).1 ∧
    (MicroBitFileSystem.flush E self ⟨s, p⟩ fd).2.1.codalFS
      = (MicroBitFileSystem.flush E selfB ⟨s, pB⟩ fd).2.1.codalFS ∧
    (MicroBitFileSystem.flush E self ⟨s, p⟩ fd).2.2
      = (MicroBitFileSystem.flush E selfB ⟨s, pB⟩ fd).2.2 ∧
    (MicroBitFileSystem.close E self ⟨s, p⟩ fd).1
      = (MicroBitFileSystem.close E selfB ⟨s, pB⟩ fd).1 ∧
    (MicroBitFileSystem.close E self ⟨s, p⟩ fd).2.1.codalFS
      = (MicroBitFileSystem.close E selfB ⟨s, pB⟩ fd).2.1.codalFS ∧
    (MicroBitFileSystem.close E self ⟨s, p⟩ fd).2.2
      = (MicroBitFileSystem.close E selfB ⟨s, pB⟩ fd).2.2 ∧
    (MicroBitFileSystem.seek E self ⟨s, p⟩ fd offset sflags).1
      = (MicroBitFileSystem.seek E selfB ⟨s, pB⟩ fd offset sflags).1 ∧
    (MicroBitFileSystem.seek E self ⟨s, p⟩ fd offset sflags).2.1.codalFS
      = (MicroBitFileSystem.seek E selfB ⟨s, pB⟩ fd offset sflags).2.1.codalFS ∧
    (MicroBitFileSystem.seek E self ⟨s, p⟩ fd offset sflags).2.2
      = (MicroBitFileSystem.seek E selfB ⟨s, pB⟩ fd offset sflags).2.2 ∧
    (MicroBitFileSystem.read E self ⟨s, p⟩ fd buffer size).1
      = (MicroBitFileSystem.read E selfB ⟨s, pB⟩ fd buffer size).1 ∧
    (MicroBitFileSystem.read E self ⟨s, p⟩ fd buffer size).2.1.codalFS
      = (MicroBitFileSystem.read E selfB ⟨s, pB⟩ fd buffer size).2.1.codalFS ∧
    (MicroBitFileSystem.read E self ⟨s, p⟩ fd buffer size).2.2
      = (MicroBitFileSystem.read E selfB ⟨s, pB⟩ fd buffer size).2.2 ∧
    (MicroBitFileSystem.write E self ⟨s, p⟩ fd buffer size).1
      = (MicroBitFileSystem.write E selfB ⟨s, pB⟩ fd buffer size).1 ∧
    (MicroBitFileSystem.write E self ⟨s, p⟩ fd buffer size).2.1.codalFS
      = (MicroBitFileSystem.write E selfB ⟨s, pB⟩ fd buffer size).2.1.codalFS ∧
    (MicroBitFileSystem.write E self ⟨s, p⟩ fd buffer size).2.2
      = (MicroBitFileSystem.write E selfB ⟨s, pB⟩ fd buffer size).2.2 ∧
    (MicroBitFileSystem.remove E self ⟨s, p⟩ filename).1
      = (MicroBitFileSystem.remove E selfB ⟨s, pB⟩ filename).1 ∧
    (MicroBitFileSystem.remove E self ⟨s, p⟩ filename).2.1.codalFS
      = (MicroBitFileSystem.remove E selfB ⟨s, pB⟩ filename).2.1.codalFS ∧
    (MicroBitFileSystem.remove E self ⟨s, p⟩ filename).2.2
      = (MicroBitFileSystem.remove E selfB ⟨s, pB⟩ filename).2.2 ∧
    (MicroBitFileSystem.createDirectory E self ⟨s, p⟩ name).1
      = (MicroBitFileSystem.createDirectory E selfB ⟨s, pB⟩ name).1 ∧
    (MicroBitFileSystem.createDirectory E self ⟨s, p⟩ name).2.1.codalFS
      = (MicroBitFileSystem.createDirectory E selfB ⟨s, pB⟩ name).2.1.codalFS ∧
    (MicroBitFileSystem.createDirectory E self ⟨s, p⟩ name).2.2
      = (MicroBitFileSystem.createDirectory E selfB ⟨s, pB⟩ name).2.2 :=
  ⟨rfl, rfl, rfl, rfl, rfl, rfl, rfl, rfl, rfl, rfl, rfl, rfl, rfl, rfl, rfl,
   rfl, rfl, rfl, rfl, rfl, rfl, rfl, rfl, rfl, rfl, rfl⟩

/-- C8: The constructor ignores both of its parameters: for every two pairs of
values of flashStart and flashPages — the defaults 0, 0 among them — the
construction performs exactly the same action, a single init() call on
CodalFS::defaultFileSystem, so the parameter values never influence any
observable behaviour of the facade. -/
theorem constructor_ignores_parameters {σ : Type} (E : CodalFSEngine σ)
    (self : Ptr) (w : World σ) (flashStart flashStartB : Nat)
    (flashPages flashPagesB : Int) :
    MicroBitFileSystem.construct E self w flashStart flashPages
      = MicroBitFileSystem.construct E self w flashStartB flashPagesB ∧
    MicroBitFileSystem.construct E self w flashStart flashPages
      = MicroBitFileSystem.construct E self w 0 0 ∧
    MicroBitFileSystem.construct E self w flashStart flashPages
      = ({ w with codalFS := E.init w.codalFS },
         [Event.engineCall EngineCall.init]) :=
  ⟨rfl, rfl, rfl⟩

/-- C9: No concurrency control, locking or scheduling is present in this
layer: the event trace of every facade operation, the constructor included,
contains no synchronisation action — no lock acquisition or release, no
interrupt masking, no scheduler interaction — only its single engine call; any
concurrency guarantee therefore can only come from the backing engine. -/
theorem no_sync_events_in_any_operation {σ : Type} (E : CodalFSEngine σ)
    (self : Ptr) (w : World σ) (filename name : CString) (flags : Nat)
    (fd offset size flashPages : Int) (sflags flashStart : Nat)
    (buffer : Ptr) :
    ((MicroBitFileSystem.construct E self w flashStart flashPages).2.all
      fun e => ! e.isSync) = true ∧
    ((MicroBitFileSystem.openFile E self w filename flags).2.2.all
      fun e => ! e.isSync) = true ∧
    ((MicroBitFileSystem.flush E self w fd).2.2.all
      fun e => ! e.isSync) = true ∧
    ((MicroBitFileSystem.close E self w fd).2.2.all
      fun e => ! e.isSync) = true ∧
    ((MicroBitFileSystem.seek E self w fd offset sflags).2.2.all
      fun e => ! e.isSync) = true ∧
    ((MicroBitFileSystem.read E self w fd buffer size).2.2.all
      fun e => ! e.isSync) = true ∧
    ((MicroBitFileSystem.write E self w fd buffer size).2.2.all
      fun e => ! e.isSync) = true ∧
    ((MicroBitFileSystem.remove E self w filename).2.2.all
      fun e => ! e.isSync) = true ∧
    ((MicroBitFileSystem.createDirectory E self w name).2.2.all
      fun e => ! e.isSync) = true :=
  ⟨rfl, rfl, rfl, rfl, rfl, rfl, rfl, rfl, rfl⟩
